import Mathlib

/-
Verification of the process-supervision logic of s3_extend/s3p.py (class S3P).

The embedding below translates the supervision code into pure Lean
functions.  Effects on the operating system (psutil queries, process
kills, subprocess launches, prints) are modelled by explicit environment
records of Boolean / Option-valued oracles and by event traces returned
alongside the results, so that every definition is executable.
-/

set_option autoImplicit false

namespace S3Extend

/-- The three supervised roles: backplane, websocket gateway (wsgw),
picoboard gateway (pbgw). -/
inductive Role where
  | backplane
  | wsgw
  | pbgw
deriving DecidableEq, Repr

/-- The executable name launched for each role (the string passed to
subprocess.Popen, and the name carried by a FileNotFoundError when the
launch fails). -/
def execName : Role → String
  | Role.backplane => "backplane"
  | Role.wsgw => "wsgw"
  | Role.pbgw => "pbgw"

/-- Startup order of the roles in S3P.__init__. -/
def roleIndex : Role → Nat
  | Role.backplane => 0
  | Role.wsgw => 1
  | Role.pbgw => 2

/-- A Python value as it can appear in the local variables of
S3P.killall: None, an integer pid, or a psutil.Process object
(carrying the pid it was built from). -/
inductive PyVal where
  | none
  | pid (n : Nat)
  | proc (n : Nat)
deriving DecidableEq, Repr

/-- Python truthiness of such a value: None is falsy, an integer is
truthy iff nonzero, a Process object is always truthy. -/
def PyVal.truthy : PyVal → Bool
  | PyVal.none => false
  | PyVal.pid n => decide (¬ n = 0)
  | PyVal.proc _ => true

/-- The pid fields of an S3P instance after a successful __init__:
self.proc_bp, self.proc_awg and self.proc_hwg all hold OS pids. -/
structure Procs where
  proc_bp : Nat
  proc_awg : Nat
  proc_hwg : Nat
deriving DecidableEq, Repr

/-- Oracle for the OS interactions of S3P.killall:
`queryOk pid` tells whether psutil.Process(pid) succeeds (false models a
NoSuchProcess / AccessDenied / ZombieProcess exception), and
`killOk pid` tells whether the subsequent p.kill() call raises (false
models any exception, which the code catches with a bare except). -/
structure KillEnv where
  queryOk : Nat → Bool
  killOk : Nat → Bool

/-- Result of one S3P.killall call: the pids on which p.kill() was
invoked (in order), the lines printed, the final value of the local
variable p, and the stop_event flag (set unconditionally on entry). -/
structure KillResult where
  kills : List Nat
  lines : List String
  pFinal : PyVal
  stopSet : Bool
deriving DecidableEq, Repr

/-- One guarded branch of S3P.killall
(`if cond: try: p = psutil.Process(target) except ...: pass
else: print(label); try: p.kill() except: print(failLabel)`).
Returns the new value of the local p, the kill attempts, and the
printed lines.  Note that a failed kill is still an attempt, and that
on a failed query p keeps its previous value (the except body is
`pass`). -/
def branch (kenv : KillEnv) (target : Nat) (cond : Bool) (p : PyVal)
    (label failLabel : String) : PyVal × List Nat × List String :=
  if cond then
    if kenv.queryOk target then
      (PyVal.proc target, [target],
        if kenv.killOk target then [label] else [label, failLabel])
    else (p, [], [])
  else (p, [], [])

/-- S3P.killall(self, b, w, p).  It first sets self.stop_event, then runs
the three guarded branches.  The kill targets are always the pids stored
in self (st), not the arguments; the arguments b and w only gate their
branches.  The third branch is gated on the local variable p, which the
first two branches may have reassigned to a psutil.Process object — the
caller-supplied third argument p0 is only its initial value. -/
def killall (kenv : KillEnv) (st : Procs) (b w p0 : PyVal) : KillResult :=
  let r1 := branch kenv st.proc_bp b.truthy p0
    ("killing backplane") ("exception in killing backplane")
  let r2 := branch kenv st.proc_awg w.truthy r1.1
    ("killing websocket gateway") ("exception in killing awg")
  let r3 := branch kenv st.proc_hwg r2.1.truthy r2.1
    ("killing picoboard gateway") ("exception in killing pbgw")
  ⟨r1.2.1 ++ r2.2.1 ++ r3.2.1, r1.2.2 ++ r2.2.2 ++ r3.2.2, r3.1, true⟩

theorem killall_none_kills (kenv : KillEnv) (st : Procs) :
    (killall kenv st PyVal.none PyVal.none PyVal.none).kills = [] := rfl

theorem PyVal.truthy_proc (n : Nat) : (PyVal.proc n).truthy = true := rfl

theorem PyVal.truthy_none : PyVal.none.truthy = false := rfl

/-- C10: in S3P.killall the parameter p is reassigned while handling the
backplane and websocket branches; whenever the backplane argument is a
truthy pid and the backplane pid is queryable, the result is independent
of the caller's third argument, and the picoboard-gateway branch
executes — in particular, if the picoboard pid is queryable its kill is
attempted even though the caller passed p = None. -/
theorem c10_killall_p_aliasing (kenv : KillEnv) (st : Procs) (n : Nat)
    (w p0 : PyVal) (hn : ¬ n = 0) (hq : kenv.queryOk st.proc_bp = true) :
    killall kenv st (PyVal.pid n) w p0 =
      killall kenv st (PyVal.pid n) w PyVal.none ∧
    (kenv.queryOk st.proc_hwg = true →
      st.proc_hwg ∈ (killall kenv st (PyVal.pid n) w p0).kills) := by
  have hb : (PyVal.pid n).truthy = true := by
    simp [PyVal.truthy, hn]
  constructor
  · simp [killall, branch, hb, hq]
  · intro hq3
    cases hw : w.truthy
    · simp [killall, branch, hb, hq, hw, hq3, PyVal.truthy_proc]
    · by_cases hq2 : kenv.queryOk st.proc_awg = true
      · simp [killall, branch, hb, hq, hw, hq2, hq3, PyVal.truthy_proc]
      · simp [killall, branch, hb, hq, hw, hq2, hq3, PyVal.truthy_proc]

def c10Env : KillEnv := ⟨fun _ => true, fun _ => true⟩

def c10St : Procs := ⟨41, 42, 43⟩

theorem c10_witness :
    killall c10Env c10St (PyVal.pid 41) (PyVal.pid 42) (PyVal.pid 43) =
      killall c10Env c10St (PyVal.pid 41) (PyVal.pid 42) PyVal.none ∧
    (c10Env.queryOk c10St.proc_hwg = true →
      c10St.proc_hwg ∈
        (killall c10Env c10St (PyVal.pid 41) (PyVal.pid 42)
          (PyVal.pid 43)).kills) :=
  c10_killall_p_aliasing c10Env c10St 41 (PyVal.pid 42) (PyVal.pid 43)
    (by decide) (by decide)

/-- The healthy process statuses accepted by S3P.run
(`valid_status = ['sleeping', 'running', 'disk-sleep']`). -/
def valid_status : List String := ["sleeping", "running", "disk-sleep"]

/-- Oracle for the OS interactions of the monitor thread (S3P.run):
`status pid` is the value of psutil.Process(pid).status(), or none if the
query raised NoSuchProcess / AccessDenied / ZombieProcess.  The kill
environment is used by the killall calls the monitor triggers. -/
structure MonEnv where
  status : Nat → Option String
  kenv : KillEnv

/-- `pid_list = [self.proc_bp, self.proc_awg, self.proc_hwg]` from
S3P.run. -/
def pid_list (st : Procs) : List Nat := [st.proc_bp, st.proc_awg, st.proc_hwg]

/-- The advisory line S3P.run prints when a polled status is not in
valid_status: the role name is chosen by comparing the pid with
self.proc_bp first, then self.proc_awg, else picoboard. -/
def statusLine (st : Procs) (pid : Nat) (s : String) : String :=
  if pid = st.proc_bp then ("Backplane exited with status of: ") ++ s
  else if pid = st.proc_awg then
    ("Websocket Gateway exited with status of: ") ++ s
  else ("Picoboard Gateway exited with status of: ") ++ s

/-- True when a poll of this pid makes S3P.run call killall: either the
status query raised, or the status is outside valid_status. -/
def unhealthy (env : MonEnv) (pid : Nat) : Bool :=
  match env.status pid with
  | Option.some s => decide (¬ s ∈ valid_status)
  | Option.none => true

/-- Observable outcome of one pass of the monitor loop body:
lines printed, pids on which the triggered killall calls invoked kill,
and how many times killall was invoked. -/
structure CycleResult where
  lines : List String
  kills : List Nat
  killCalls : Nat
deriving DecidableEq, Repr

/-- One iteration of the `for pid in pid_list` body in S3P.run.
On an invalid status the role line is printed and
`self.killall(bp, ws, pb)` is called; on a failed query killall is
called without printing.  The locals bp, ws, pb are assigned None at the
top of the while body and never reassigned, so every killall call made
by the monitor passes None for all three parameters. -/
def monitorStep (env : MonEnv) (st : Procs) (pid : Nat) : CycleResult :=
  match env.status pid with
  | Option.some s =>
    if s ∈ valid_status then ⟨[], [], 0⟩
    else
      ⟨[statusLine st pid s] ++
          (killall env.kenv st PyVal.none PyVal.none PyVal.none).lines,
        (killall env.kenv st PyVal.none PyVal.none PyVal.none).kills, 1⟩
  | Option.none =>
    ⟨(killall env.kenv st PyVal.none PyVal.none PyVal.none).lines,
      (killall env.kenv st PyVal.none PyVal.none PyVal.none).kills, 1⟩

/-- The whole `for pid in pid_list` loop of one while-iteration of
S3P.run (the loop has no break, so every pid is polled). -/
def monitorCycleGo (env : MonEnv) (st : Procs) : List Nat → CycleResult
  | [] => ⟨[], [], 0⟩
  | pid :: rest =>
    let r := monitorStep env st pid
    let t := monitorCycleGo env st rest
    ⟨r.lines ++ t.lines, r.kills ++ t.kills, r.killCalls + t.killCalls⟩

def monitorCycle (env : MonEnv) (st : Procs) : CycleResult :=
  monitorCycleGo env st (pid_list st)

/-- The atexit handler registered in S3P.__init__:
`atexit.register(self.killall, self.proc_bp, self.proc_awg,
self.proc_hwg)` — killall called once at interpreter exit with the three
stored pids as arguments. -/
def atexitKill (kenv : KillEnv) (st : Procs) : KillResult :=
  killall kenv st (PyVal.pid st.proc_bp) (PyVal.pid st.proc_awg)
    (PyVal.pid st.proc_hwg)

/-- What a run observably does from a monitor detection to process
exit. -/
structure ShutdownOutcome where
  lines : List String
  kills : List Nat
  exitCode : Nat
deriving DecidableEq, Repr

/-- One monitor cycle followed, if the cycle called killall (so
stop_event is set), by the main loop noticing stop_event: it prints the
error line and calls sys.exit(0), which runs the registered atexit
killall with the three stored pids.  Returns none if the cycle detected
nothing (the loop just continues). -/
def detectionShutdown (env : MonEnv) (st : Procs) : Option ShutdownOutcome :=
  if (monitorCycle env st).killCalls = 0 then Option.none
  else Option.some
    ⟨(monitorCycle env st).lines ++
        ["Exiting. Error detected - is your Picoboard plugged in?"] ++
        (atexitKill env.kenv st).lines,
      (monitorCycle env st).kills ++ (atexitKill env.kenv st).kills, 0⟩

/-- The sys.exit(0) executed when the main loop catches the
KeyboardInterrupt raised by an interactive interrupt (or by the signal
handler). -/
def interruptExit : Nat := 0

theorem monitorCycleGo_kills (env : MonEnv) (st : Procs) (l : List Nat) :
    (monitorCycleGo env st l).kills = [] := by
  induction l with
  | nil => rfl
  | cons pid rest ih =>
    simp only [monitorCycleGo, ih]
    have h : (monitorStep env st pid).kills = [] := by
      unfold monitorStep
      cases env.status pid with
      | none => exact killall_none_kills env.kenv st
      | some s =>
        by_cases hs : s ∈ valid_status
        · simp [hs]
        · simp [hs, killall_none_kills]
    simp [h]

theorem monitorCycleGo_killCalls (env : MonEnv) (st : Procs) (l : List Nat) :
    (monitorCycleGo env st l).killCalls = l.countP (unhealthy env) := by
  induction l with
  | nil => rfl
  | cons pid rest ih =>
    simp only [monitorCycleGo, ih, List.countP_cons]
    have h : (monitorStep env st pid).killCalls =
        (if unhealthy env pid = true then 1 else 0) := by
      unfold monitorStep unhealthy
      cases env.status pid with
      | none => simp
      | some s =>
        by_cases hs : s ∈ valid_status
        · simp [hs]
        · simp [hs]
    rw [h]
    omega

/-- With all three stored pids positive and queryable, the atexit
killall attempts a kill on exactly the backplane, websocket-gateway and
picoboard-gateway pids, in that order, whatever the kill outcomes. -/
theorem atexitKill_kills_all (kenv : KillEnv) (st : Procs)
    (hq : ∀ pid ∈ pid_list st, kenv.queryOk pid = true)
    (hpos : ∀ pid ∈ pid_list st, 0 < pid) :
    (atexitKill kenv st).kills = [st.proc_bp, st.proc_awg, st.proc_hwg] := by
  have hq1 : kenv.queryOk st.proc_bp = true := hq _ (by simp [pid_list])
  have hq2 : kenv.queryOk st.proc_awg = true := hq _ (by simp [pid_list])
  have hq3 : kenv.queryOk st.proc_hwg = true := hq _ (by simp [pid_list])
  have hp1 : (PyVal.pid st.proc_bp).truthy = true := by
    have := hpos _ (show st.proc_bp ∈ pid_list st by simp [pid_list])
    simp [PyVal.truthy]
    omega
  have hp2 : (PyVal.pid st.proc_awg).truthy = true := by
    have := hpos _ (show st.proc_awg ∈ pid_list st by simp [pid_list])
    simp [PyVal.truthy]
    omega
  simp [atexitKill, killall, branch, hq1, hq2, hq3, hp1, hp2,
    PyVal.truthy_proc]

/-- C1: if the monitor classifies any supervised process's polled status
as outside valid_status (or the query fails), then — via stop_event, the
main-loop exit and the registered atexit handler — a kill is attempted
on every one of the three stored pids (assuming they are positive OS
pids that are still queryable), and this list of attempts is the same
for every kill-outcome oracle, so an individual termination failure
never prevents the remaining attempts. -/
theorem c1_detection_kills_all (env : MonEnv) (st : Procs)
    (hdet : ∃ pid ∈ pid_list st, unhealthy env pid = true)
    (hq : ∀ pid ∈ pid_list st, env.kenv.queryOk pid = true)
    (hpos : ∀ pid ∈ pid_list st, 0 < pid) :
    ∃ o, detectionShutdown env st = Option.some o ∧
      o.kills = [st.proc_bp, st.proc_awg, st.proc_hwg] := by
  have hcalls : ¬ (monitorCycle env st).killCalls = 0 := by
    rw [monitorCycle, monitorCycleGo_killCalls]
    obtain ⟨pid, hmem, hu⟩ := hdet
    have : 0 < (pid_list st).countP (unhealthy env) :=
      List.countP_pos_iff.mpr ⟨pid, hmem, hu⟩
    omega
  have hmain : detectionShutdown env st = Option.some
      ⟨(monitorCycle env st).lines ++
          ["Exiting. Error detected - is your Picoboard plugged in?"] ++
          (atexitKill env.kenv st).lines,
        (monitorCycle env st).kills ++ (atexitKill env.kenv st).kills, 0⟩ := by
    unfold detectionShutdown
    rw [if_neg hcalls]
  refine ⟨_, hmain, ?_⟩
  show (monitorCycle env st).kills ++ (atexitKill env.kenv st).kills =
    [st.proc_bp, st.proc_awg, st.proc_hwg]
  rw [monitorCycle, monitorCycleGo_kills,
    atexitKill_kills_all env.kenv st hq hpos]
  rfl

/-- Supervisor pids used for the C1 witness run. -/
def c1St : Procs := ⟨11, 12, 13⟩

/-- Monitor environment for the C1 witness: the picoboard gateway
(pid 13) reports status zombie, the others are sleeping; every pid is
queryable; every kill raises (killOk always false), showing termination
failures do not stop the attempts. -/
def c1Env : MonEnv :=
  ⟨fun pid => if pid = 13 then Option.some ("zombie")
    else Option.some ("sleeping"),
    ⟨fun _ => true, fun _ => false⟩⟩

theorem c1_witness :
    ∃ o, detectionShutdown c1Env c1St = Option.some o ∧
      o.kills = [c1St.proc_bp, c1St.proc_awg, c1St.proc_hwg] :=
  c1_detection_kills_all c1Env c1St
    (by refine ⟨13, by simp [pid_list, c1St], ?_⟩; decide)
    (by intro pid hmem; rfl)
    (by intro pid hmem; simp [pid_list, c1St] at hmem; omega)

/-- Supervisor pids for the C3 counterexample (the spec scenario:
device gateway id 300). -/
def c3St : Procs := ⟨100, 200, 300⟩

/-- Monitor environment for the C3 counterexample: the device gateway
(pid 300) polls as zombie, everything else healthy and killable. -/
def c3Env : MonEnv :=
  ⟨fun pid => if pid = 300 then Option.some ("zombie")
    else Option.some ("running"),
    ⟨fun _ => true, fun _ => true⟩⟩

/-- C3 counterexample: when shutdown is triggered because the monitor
detected an unhealthy process (device gateway pid 300 polls as zombie),
the supervisor does NOT exit with a non-zero status: the main loop runs
sys.exit(0), so the exit code is 0. -/
theorem c3_counterexample :
    ∃ o, detectionShutdown c3Env c3St = Option.some o ∧
      ¬ o.exitCode ≠ 0 := by
  refine ⟨_, rfl, ?_⟩
  decide

/-- C3 amended: every monitor-triggered shutdown exits with status 0,
exactly like a normal interactive exit (both code paths call
sys.exit(0)). -/
theorem c3_exit_code_zero (env : MonEnv) (st : Procs) (o : ShutdownOutcome)
    (h : detectionShutdown env st = Option.some o) :
    o.exitCode = 0 ∧ interruptExit = 0 := by
  refine ⟨?_, rfl⟩
  unfold detectionShutdown at h
  by_cases hc : (monitorCycle env st).killCalls = 0
  · rw [if_pos hc] at h
    exact absurd h (by simp)
  · rw [if_neg hc] at h
    rw [Option.some.injEq] at h
    rw [← h]

theorem c3_witness :
    (⟨(monitorCycle c3Env c3St).lines ++
        ["Exiting. Error detected - is your Picoboard plugged in?"] ++
        (atexitKill c3Env.kenv c3St).lines,
      (monitorCycle c3Env c3St).kills ++ (atexitKill c3Env.kenv c3St).kills,
      0⟩ : ShutdownOutcome).exitCode = 0 ∧ interruptExit = 0 :=
  c3_exit_code_zero c3Env c3St _ rfl

/-- The two kinds of killall invocation that occur in a run: calls from
the monitor thread (which always pass bp = ws = pb = None, see S3P.run),
and the single call the interpreter makes at exit through the atexit
registration (which passes the three stored pids). -/
inductive KillCall where
  | fromMonitor
  | fromAtexit
deriving DecidableEq, Repr

/-- The kill attempts a given killall invocation performs. -/
def callKills (kenv : KillEnv) (st : Procs) : KillCall → List Nat
  | KillCall.fromMonitor =>
    (killall kenv st PyVal.none PyVal.none PyVal.none).kills
  | KillCall.fromAtexit => (atexitKill kenv st).kills

/-- All kill attempts over a whole run, given the sequence of killall
invocations that occurred. -/
def killsOfTrace (kenv : KillEnv) (st : Procs) : List KillCall → List Nat
  | [] => []
  | c :: rest => callKills kenv st c ++ killsOfTrace kenv st rest

/-- Evolution of self.stop_event over a run: it starts cleared
(stop_event.clear() in __init__) and every killall invocation sets it as
its first action.  The fold records the flag and the number of
false-to-true transitions. -/
def stopFlagRun (calls : List KillCall) : Bool × Nat :=
  calls.foldl (fun acc _ => (true, acc.2 + (if acc.1 then 0 else 1)))
    ((false, 0) : Bool × Nat)

/-- Number of unset-to-set transitions of stop_event over a run. -/
def stopTransitions (calls : List KillCall) : Nat := (stopFlagRun calls).2

theorem stopFlagRun_fixed (l : List KillCall) (n : Nat) :
    l.foldl (fun (acc : Bool × Nat) _ => (true, acc.2 + (if acc.1 then 0 else 1)))
      ((true, n) : Bool × Nat) = (true, n) := by
  induction l with
  | nil => rfl
  | cons c rest ih => simpa using ih

/-- In each single killall invocation the attempted-kill list is a
sublist of [proc_bp, proc_awg, proc_hwg]. -/
theorem killall_kills_sublist (kenv : KillEnv) (st : Procs) (b w p0 : PyVal) :
    List.Sublist (killall kenv st b w p0).kills
      [st.proc_bp, st.proc_awg, st.proc_hwg] := by
  show List.Sublist (killall kenv st b w p0).kills
    ([st.proc_bp] ++ [st.proc_awg] ++ [st.proc_hwg])
  have h1 : List.Sublist ((branch kenv st.proc_bp b.truthy p0
      ("killing backplane") ("exception in killing backplane")).2.1)
      ([st.proc_bp]) := by
    unfold branch
    split
    · split
      · simp
      · simp
    · simp
  have h2 : ∀ p : PyVal, List.Sublist ((branch kenv st.proc_awg w.truthy p
      ("killing websocket gateway") ("exception in killing awg")).2.1)
      ([st.proc_awg]) := by
    intro p
    unfold branch
    split
    · split
      · simp
      · simp
    · simp
  have h3 : ∀ (c : Bool) (p : PyVal),
      List.Sublist ((branch kenv st.proc_hwg c p
        ("killing picoboard gateway") ("exception in killing pbgw")).2.1)
      ([st.proc_hwg]) := by
    intro c p
    unfold branch
    split
    · split
      · simp
      · simp
    · simp
  exact List.Sublist.append (List.Sublist.append h1 (h2 _)) (h3 _ _)

theorem count_killsOfTrace (kenv : KillEnv) (st : Procs)
    (calls : List KillCall) (x : Nat) :
    (killsOfTrace kenv st calls).count x =
      calls.count KillCall.fromAtexit * (atexitKill kenv st).kills.count x := by
  induction calls with
  | nil => simp [killsOfTrace]
  | cons c rest ih =>
    cases c with
    | fromMonitor =>
      simp only [killsOfTrace, callKills, killall_none_kills,
        List.nil_append, ih, List.count_cons]
      simp
    | fromAtexit =>
      simp only [killsOfTrace, callKills, List.count_append, ih,
        List.count_cons]
      simp [Nat.succ_mul, Nat.add_comm]

/-- C2: over any run trace in which the interpreter-exit killall occurs
at most once (atexit guarantees this) and the three stored pids are
distinct, stop_event transitions from unset to set exactly once no
matter how many killall invocations race in, and a kill is attempted at
most once per supervised pid. -/
theorem c2_single_shutdown (kenv : KillEnv) (st : Procs)
    (calls : List KillCall) (hne : calls ≠ [])
    (hone : calls.count KillCall.fromAtexit ≤ 1)
    (hd1 : st.proc_bp ≠ st.proc_awg) (hd2 : st.proc_bp ≠ st.proc_hwg)
    (hd3 : st.proc_awg ≠ st.proc_hwg) :
    stopTransitions calls = 1 ∧
      ∀ x, (killsOfTrace kenv st calls).count x ≤ 1 := by
  constructor
  · cases calls with
    | nil => exact absurd rfl hne
    | cons c rest =>
      show (List.foldl _ ((false, 0) : Bool × Nat) (c :: rest)).2 = 1
      rw [List.foldl_cons]
      exact congrArg Prod.snd (stopFlagRun_fixed rest 1)
  · intro x
    rw [count_killsOfTrace]
    have hnd : List.Nodup [st.proc_bp, st.proc_awg, st.proc_hwg] := by
      simp [hd1, hd2, hd3]
    have hsub : List.Sublist (atexitKill kenv st).kills
        [st.proc_bp, st.proc_awg, st.proc_hwg] :=
      killall_kills_sublist kenv st _ _ _
    have hk : (atexitKill kenv st).kills.count x ≤ 1 :=
      List.nodup_iff_count_le_one.mp (List.Nodup.sublist hsub hnd) x
    calc calls.count KillCall.fromAtexit * (atexitKill kenv st).kills.count x
        ≤ 1 * 1 := Nat.mul_le_mul hone hk
      _ = 1 := rfl

/-- Pids for the C2 witness. -/
def c2St : Procs := ⟨21, 22, 23⟩

def c2Kenv : KillEnv := ⟨fun _ => true, fun _ => true⟩

/-- Trace for the C2 witness: two monitor detections race with the
single atexit invocation. -/
def c2Calls : List KillCall :=
  [KillCall.fromMonitor, KillCall.fromAtexit, KillCall.fromMonitor]

theorem c2_witness :
    stopTransitions c2Calls = 1 ∧
      (killsOfTrace c2Kenv c2St c2Calls).count 21 ≤ 1 :=
  ⟨(c2_single_shutdown c2Kenv c2St c2Calls (by decide) (by decide)
      (by decide) (by decide) (by decide)).1,
    (c2_single_shutdown c2Kenv c2St c2Calls (by decide) (by decide)
      (by decide) (by decide) (by decide)).2 21⟩

/-- The three pid fields of S3P as they are typed in __init__ before
startup: each is None until the corresponding launch or discovery
succeeds. -/
structure Fields where
  proc_bp : Option Nat
  proc_awg : Option Nat
  proc_hwg : Option Nat
deriving DecidableEq, Repr

/-- Python falsiness of a pid field (`if not self.proc_bp`): None is
falsy, an integer is falsy iff it is 0. -/
def optFalsy : Option Nat → Bool
  | Option.none => true
  | Option.some n => decide (n = 0)

/-- The three advisory checks at the top of S3P.run (lines 89-94), as
written in the source: the first two BOTH test self.proc_bp (line 91
tests proc_bp where the printed text says wsgw), and the third tests
self.proc_hwg. -/
def startupWarnings (f : Fields) : List String :=
  (if optFalsy f.proc_bp then ["backplane not up"] else []) ++
  (if optFalsy f.proc_bp then ["wsgw not up"] else []) ++
  (if optFalsy f.proc_hwg then ["pbgw not up"] else [])

/-- Observable startup events of S3P.__init__: a subprocess.Popen call
for a role with its argument list, a printed line, or the fixed
time.sleep delay (in seconds). -/
inductive Event where
  | launch (r : Role) (args : List String)
  | printed (s : String)
  | sleep (secs : Nat)
deriving DecidableEq, Repr

/-- Oracle for the OS interactions of S3P.__init__:
`pids` is the snapshot returned by psutil.pids();
`nameOf pid` is psutil.Process(pid).name(), or none if the process
vanished or became inaccessible between enumeration and query;
`launchPid r` is the pid subprocess.Popen returns for that role's
executable, or none if Popen raises (FileNotFoundError: missing
binary / unspawnable); `com_port` is the optional manual serial port. -/
structure InitEnv where
  pids : List Nat
  nameOf : Nat → Option String
  launchPid : Role → Option Nat
  com_port : Option String

/-- State of the `for pid in psutil.pids()` loop in S3P.start_backplane:
the local variable p (None until the first successful psutil.Process
call, afterwards the last successfully constructed Process, as a
(pid, name) pair), self.backplane_exists, self.proc_bp, and the lines
printed so far. -/
structure ScanState where
  p : Option (Nat × String)
  backplane_exists : Bool
  proc_bp : Option Nat
  events : List Event
deriving DecidableEq, Repr

def scanInit : ScanState := ⟨Option.none, false, Option.none, []⟩

/-- One iteration of the scan loop.  `try: p = psutil.Process(pid)
except ...: pass` leaves p unchanged on failure; then `p.name()` is
evaluated OUTSIDE any handler, so if p is still None (every query so
far failed) the iteration raises AttributeError, which nothing
catches.  On a name match the existing pid is adopted and the
Backplane-started line printed; there is no break, so a later match
overwrites an earlier one. -/
def scanStep (env : InitEnv) (s : ScanState) (pid : Nat) :
    Except String ScanState :=
  match (match env.nameOf pid with
    | Option.some nm => Option.some (pid, nm)
    | Option.none => s.p) with
  | Option.none => Except.error ("AttributeError")
  | Option.some pr =>
    if pr.2 = "backplane" then
      Except.ok ⟨Option.some pr, true, Option.some pr.1,
        s.events ++ [Event.printed ("Backplane started.")]⟩
    else
      Except.ok ⟨Option.some pr, s.backplane_exists, s.proc_bp, s.events⟩

/-- The process-registry scan of S3P.start_backplane (lines 169-180). -/
def backplaneScan (env : InitEnv) : Except String ScanState :=
  List.foldlM (scanStep env) scanInit env.pids

/-- Result of S3P.start_backplane. -/
structure BpResult where
  proc_bp : Option Nat
  backplane_exists : Bool
  events : List Event
deriving DecidableEq, Repr

/-- S3P.start_backplane: scan for an existing backplane process; if none
was found, spawn one with subprocess.Popen('backplane') — a Popen
failure (missing binary) propagates as an error naming the executable,
after the launch attempt itself is recorded. -/
def start_backplane (env : InitEnv) : Except (String × List Event) BpResult :=
  match backplaneScan env with
  | Except.error e => Except.error (e, [])
  | Except.ok s =>
    if s.backplane_exists then Except.ok ⟨s.proc_bp, true, s.events⟩
    else
      match env.launchPid Role.backplane with
      | Option.none =>
        Except.error (execName Role.backplane,
          s.events ++ [Event.launch Role.backplane []])
      | Option.some bpid =>
        Except.ok ⟨Option.some bpid, true,
          s.events ++ [Event.launch Role.backplane [],
            Event.printed ("Backplane started.")]⟩

/-- The wsgw_start argument list of S3P.start_wsgw (identical on both
platform branches). -/
def wsgw_start : List String := ["wsgw", "-i", "9004"]

/-- The pbgw_start argument list of S3P.start_pbgw: ['pbgw'], plus
'-c' com_port when a manual port was supplied. -/
def pbgw_start (com_port : Option String) : List String :=
  match com_port with
  | Option.none => ["pbgw"]
  | Option.some c => ["pbgw", "-c", c]

/-- Result of a completed S3P.__init__ startup sequence. -/
structure InitResult where
  fields : Fields
  backplane_exists : Bool
  events : List Event
deriving DecidableEq, Repr

/-- The startup sequence of S3P.__init__ (lines 53-63):
start_backplane(); time.sleep(1); start_wsgw(); start_pbgw().
Each start_* method runs Popen and then prints its started line; a
Popen failure propagates immediately (no try/except anywhere on this
path), carrying the executable name, so no later role is started. -/
def s3pInit (env : InitEnv) : Except (String × List Event) InitResult :=
  match start_backplane env with
  | Except.error e => Except.error e
  | Except.ok bp =>
    match env.launchPid Role.wsgw with
    | Option.none =>
      Except.error (execName Role.wsgw,
        bp.events ++ [Event.sleep 1, Event.launch Role.wsgw wsgw_start])
    | Option.some apid =>
      match env.launchPid Role.pbgw with
      | Option.none =>
        Except.error (execName Role.pbgw,
          bp.events ++ [Event.sleep 1, Event.launch Role.wsgw wsgw_start,
            Event.printed ("Websocket Gateway started."),
            Event.launch Role.pbgw (pbgw_start env.com_port)])
      | Option.some hpid =>
        Except.ok ⟨⟨bp.proc_bp, Option.some apid, Option.some hpid⟩,
          bp.backplane_exists,
          bp.events ++ [Event.sleep 1, Event.launch Role.wsgw wsgw_start,
            Event.printed ("Websocket Gateway started."),
            Event.launch Role.pbgw (pbgw_start env.com_port),
            Event.printed ("Picoboard Gateway started.")]⟩

/-- The pids among a given enumeration whose executable name is exactly
backplane. -/
def matchesOf (env : InitEnv) (pids : List Nat) : List Nat :=
  pids.filter (fun pid => decide (env.nameOf pid = Option.some ("backplane")))

/-- The last element of a list if there is one, a default otherwise. -/
def lastOr (l : List Nat) (d : Option Nat) : Option Nat :=
  match l.getLast? with
  | Option.some m => Option.some m
  | Option.none => d

theorem lastOr_cons (x : Nat) (l : List Nat) (d : Option Nat) :
    lastOr (x :: l) d = lastOr l (Option.some x) := by
  cases l with
  | nil => rfl
  | cons y t =>
    unfold lastOr
    rw [List.getLast?_cons_cons]
    cases hg : (y :: t).getLast? with
    | some m => rfl
    | none =>
      rw [List.getLast?_eq_none_iff] at hg
      exact absurd hg (by simp)

/-- Characterization of the scan loop when every enumerated pid stays
queryable: it never raises, backplane_exists records whether some name
matched, proc_bp ends at the LAST matching pid (no break in the loop),
and one started line is printed per match. -/
theorem scan_char (env : InitEnv) :
    ∀ (pids : List Nat) (s0 : ScanState),
      (∀ pid ∈ pids, (env.nameOf pid).isSome = true) →
      ∃ s, List.foldlM (scanStep env) s0 pids = Except.ok s ∧
        s.backplane_exists =
          (s0.backplane_exists || !(matchesOf env pids).isEmpty) ∧
        s.proc_bp = lastOr (matchesOf env pids) s0.proc_bp ∧
        s.events = s0.events ++
          (matchesOf env pids).map
            (fun _ => Event.printed ("Backplane started.")) := by
  intro pids
  induction pids with
  | nil =>
    intro s0 _
    refine ⟨s0, rfl, ?_, ?_, ?_⟩
    · simp [matchesOf, List.filter_nil]
    · rfl
    · simp [matchesOf]
  | cons pid rest ih =>
    intro s0 h
    have hpid : (env.nameOf pid).isSome = true := h pid (by simp)
    obtain ⟨nm, hnm⟩ := Option.isSome_iff_exists.mp hpid
    have hrest : ∀ q ∈ rest, (env.nameOf q).isSome = true :=
      fun q hq => h q (by simp [hq])
    by_cases hbp : nm = "backplane"
    · have hstep : scanStep env s0 pid = Except.ok
          ⟨Option.some (pid, nm), true, Option.some pid,
            s0.events ++ [Event.printed ("Backplane started.")]⟩ := by
        unfold scanStep
        rw [hnm]
        simp [hbp]
      have hmm : matchesOf env (pid :: rest) = pid :: matchesOf env rest := by
        simp [matchesOf, List.filter_cons, hnm, hbp]
      obtain ⟨s, hfold, hbe, hpb, hev⟩ := ih
        ⟨Option.some (pid, nm), true, Option.some pid,
          s0.events ++ [Event.printed ("Backplane started.")]⟩ hrest
      refine ⟨s, ?_, ?_, ?_, ?_⟩
      · rw [List.foldlM_cons, hstep]
        exact hfold
      · rw [hbe, hmm]
        simp
      · rw [hpb, hmm, lastOr_cons]
      · rw [hev, hmm]
        simp
    · have hstep : scanStep env s0 pid = Except.ok
          ⟨Option.some (pid, nm), s0.backplane_exists, s0.proc_bp,
            s0.events⟩ := by
        unfold scanStep
        rw [hnm]
        simp [hbp]
      have hmm : matchesOf env (pid :: rest) = matchesOf env rest := by
        simp [matchesOf, List.filter_cons, hnm, hbp]
      obtain ⟨s, hfold, hbe, hpb, hev⟩ := ih
        ⟨Option.some (pid, nm), s0.backplane_exists, s0.proc_bp,
          s0.events⟩ hrest
      refine ⟨s, ?_, ?_, ?_, ?_⟩
      · rw [List.foldlM_cons, hstep]
        exact hfold
      · rw [hbe, hmm]
      · rw [hpb, hmm]
      · rw [hev, hmm]

/-- The scan from the initial state, under full queryability. -/
theorem backplaneScan_char (env : InitEnv)
    (hq : ∀ pid ∈ env.pids, (env.nameOf pid).isSome = true) :
    ∃ s, backplaneScan env = Except.ok s ∧
      s.backplane_exists = !(matchesOf env env.pids).isEmpty ∧
      s.proc_bp = lastOr (matchesOf env env.pids) Option.none ∧
      s.events = (matchesOf env env.pids).map
        (fun _ => Event.printed ("Backplane started.")) := by
  obtain ⟨s, hfold, hbe, hpb, hev⟩ := scan_char env env.pids scanInit hq
  refine ⟨s, hfold, ?_, ?_, ?_⟩
  · rw [hbe]
    rfl
  · exact hpb
  · rw [hev]
    rfl

theorem scanStep_events (env : InitEnv) (s0 : ScanState) (pid : Nat)
    (s1 : ScanState) (h : scanStep env s0 pid = Except.ok s1) :
    s1.events = s0.events ∨
      s1.events = s0.events ++ [Event.printed ("Backplane started.")] := by
  unfold scanStep at h
  split at h
  · exact Except.noConfusion h
  · split at h
    · rw [Except.ok.injEq] at h
      right
      rw [← h]
    · rw [Except.ok.injEq] at h
      left
      rw [← h]

/-- The scan loop itself only ever prints; it never launches anything. -/
theorem scan_events_printed (env : InitEnv) :
    ∀ (pids : List Nat) (s0 s : ScanState),
      List.foldlM (scanStep env) s0 pids = Except.ok s →
      (∀ e ∈ s0.events, ∃ m, e = Event.printed m) →
      ∀ e ∈ s.events, ∃ m, e = Event.printed m := by
  intro pids
  induction pids with
  | nil =>
    intro s0 s h hbase
    have hss : s0 = s := Except.ok.inj h
    rw [← hss]
    exact hbase
  | cons pid rest ih =>
    intro s0 s h hbase
    rw [List.foldlM_cons] at h
    cases hstep : scanStep env s0 pid with
    | error e =>
      rw [hstep] at h
      exact Except.noConfusion h
    | ok s1 =>
      rw [hstep] at h
      have h' : List.foldlM (scanStep env) s1 rest = Except.ok s := h
      have hb1 : ∀ e ∈ s1.events, ∃ m, e = Event.printed m := by
        rcases scanStep_events env s0 pid s1 hstep with he | he
        · rw [he]
          exact hbase
        · rw [he]
          intro e hme
          rcases List.mem_append.mp hme with hh | hh
          · exact hbase e hh
          · refine ⟨"Backplane started.", ?_⟩
            simpa using hh
      exact ih s1 s h' hb1

/-- Whatever start_backplane returns, the only launch event its trace can
contain is a backplane launch. -/
theorem start_backplane_launches (env : InitEnv) (bp : BpResult)
    (h : start_backplane env = Except.ok bp) :
    ∀ (q : Role) (args : List String),
      Event.launch q args ∈ bp.events → q = Role.backplane := by
  cases hscan : backplaneScan env with
  | error e =>
    have hsb : start_backplane env = Except.error (e, []) := by
      simp [start_backplane, hscan]
    rw [hsb] at h
    exact Except.noConfusion h
  | ok s =>
    have hs : ∀ e ∈ s.events, ∃ m, e = Event.printed m :=
      scan_events_printed env env.pids scanInit s hscan
        (by intro e he; simp [scanInit] at he)
    by_cases hex : s.backplane_exists = true
    · have hsb : start_backplane env = Except.ok ⟨s.proc_bp, true, s.events⟩ := by
        simp [start_backplane, hscan, hex]
      rw [hsb, Except.ok.injEq] at h
      subst h
      intro q args hmem
      obtain ⟨m, hm⟩ := hs _ hmem
      exact absurd hm (by simp)
    · have hex' : s.backplane_exists = false := by
        rw [Bool.not_eq_true] at hex
        exact hex
      cases hl : env.launchPid Role.backplane with
      | none =>
        have hsb : start_backplane env = Except.error (execName Role.backplane,
            s.events ++ [Event.launch Role.backplane []]) := by
          simp [start_backplane, hscan, hex', hl]
        rw [hsb] at h
        exact Except.noConfusion h
      | some bpid =>
        have hsb : start_backplane env = Except.ok ⟨Option.some bpid, true,
            s.events ++ [Event.launch Role.backplane [],
              Event.printed ("Backplane started.")]⟩ := by
          simp [start_backplane, hscan, hex', hl]
        rw [hsb, Except.ok.injEq] at h
        subst h
        intro q args hmem
        rcases List.mem_append.mp hmem with hh | hh
        · obtain ⟨m, hm⟩ := hs _ hh
          exact absurd hm (by simp)
        · simp at hh
          exact hh.1

/-- C4: if the Popen call for a role's executable fails while every
earlier role launched (and, for the backplane, no instance was
discovered), startup aborts with an error naming exactly that role's
executable — the propagated FileNotFoundError — and no later role's
launch is ever attempted.  execName is injective on roles, so the
reported name identifies the failed role uniquely. -/
theorem c4_launch_failure_stops_startup (env : InitEnv) (r : Role)
    (s : ScanState)
    (hscan : backplaneScan env = Except.ok s)
    (hnobp : r = Role.backplane → s.backplane_exists = false)
    (hfail : env.launchPid r = Option.none)
    (hprior : ∀ q : Role, roleIndex q < roleIndex r →
      (env.launchPid q).isSome = true) :
    ∃ tr, s3pInit env = Except.error (execName r, tr) ∧
      (∀ (q : Role) (args : List String), roleIndex r < roleIndex q →
        Event.launch q args ∉ tr) ∧
      (∀ q : Role, execName q = execName r → q = r) := by
  have hs : ∀ e ∈ s.events, ∃ m, e = Event.printed m :=
    scan_events_printed env env.pids scanInit s hscan
      (by intro e he; simp [scanInit] at he)
  cases r with
  | backplane =>
    have hex : s.backplane_exists = false := hnobp rfl
    have hsb : start_backplane env = Except.error (execName Role.backplane,
        s.events ++ [Event.launch Role.backplane []]) := by
      simp [start_backplane, hscan, hex, hfail]
    have hinit : s3pInit env = Except.error (execName Role.backplane,
        s.events ++ [Event.launch Role.backplane []]) := by
      simp [s3pInit, hsb]
    refine ⟨_, hinit, ?_, ?_⟩
    · intro q args hqi hmem
      rcases List.mem_append.mp hmem with hh | hh
      · obtain ⟨m, hm⟩ := hs _ hh
        exact absurd hm (by simp)
      · simp at hh
        obtain ⟨hq, _⟩ := hh
        subst hq
        simp [roleIndex] at hqi
    · intro q hq
      cases q with
      | backplane => rfl
      | wsgw => exact absurd hq (by decide)
      | pbgw => exact absurd hq (by decide)
  | wsgw =>
    have hbpl : (env.launchPid Role.backplane).isSome = true :=
      hprior Role.backplane (by decide)
    have hok : ∃ bp : BpResult, start_backplane env = Except.ok bp := by
      by_cases hex : s.backplane_exists = true
      · exact ⟨⟨s.proc_bp, true, s.events⟩,
          by simp [start_backplane, hscan, hex]⟩
      · obtain ⟨bpid, hl⟩ := Option.isSome_iff_exists.mp hbpl
        have hex' : s.backplane_exists = false := by
          rw [Bool.not_eq_true] at hex
          exact hex
        exact ⟨⟨Option.some bpid, true,
            s.events ++ [Event.launch Role.backplane [],
              Event.printed ("Backplane started.")]⟩,
          by simp [start_backplane, hscan, hex', hl]⟩
    obtain ⟨bp, hsb⟩ := hok
    have hbpev := start_backplane_launches env bp hsb
    have hinit : s3pInit env = Except.error (execName Role.wsgw,
        bp.events ++ [Event.sleep 1, Event.launch Role.wsgw wsgw_start]) := by
      simp [s3pInit, hsb, hfail]
    refine ⟨_, hinit, ?_, ?_⟩
    · intro q args hqi hmem
      rcases List.mem_append.mp hmem with hh | hh
      · have hqb := hbpev q args hh
        subst hqb
        simp [roleIndex] at hqi
      · simp at hh
        obtain ⟨hq, _⟩ := hh
        subst hq
        simp [roleIndex] at hqi
    · intro q hq
      cases q with
      | backplane => exact absurd hq (by decide)
      | wsgw => rfl
      | pbgw => exact absurd hq (by decide)
  | pbgw =>
    have hbpl : (env.launchPid Role.backplane).isSome = true :=
      hprior Role.backplane (by decide)
    have hwl : (env.launchPid Role.wsgw).isSome = true :=
      hprior Role.wsgw (by decide)
    obtain ⟨apid, hla⟩ := Option.isSome_iff_exists.mp hwl
    have hok : ∃ bp : BpResult, start_backplane env = Except.ok bp := by
      by_cases hex : s.backplane_exists = true
      · exact ⟨⟨s.proc_bp, true, s.events⟩,
          by simp [start_backplane, hscan, hex]⟩
      · obtain ⟨bpid, hl⟩ := Option.isSome_iff_exists.mp hbpl
        have hex' : s.backplane_exists = false := by
          rw [Bool.not_eq_true] at hex
          exact hex
        exact ⟨⟨Option.some bpid, true,
            s.events ++ [Event.launch Role.backplane [],
              Event.printed ("Backplane started.")]⟩,
          by simp [start_backplane, hscan, hex', hl]⟩
    obtain ⟨bp, hsb⟩ := hok
    have hinit : s3pInit env = Except.error (execName Role.pbgw,
        bp.events ++ [Event.sleep 1, Event.launch Role.wsgw wsgw_start,
          Event.printed ("Websocket Gateway started."),
          Event.launch Role.pbgw (pbgw_start env.com_port)]) := by
      simp [s3pInit, hsb, hla, hfail]
    refine ⟨_, hinit, ?_, ?_⟩
    · intro q args hqi hmem
      cases q with
      | backplane => simp [roleIndex] at hqi
      | wsgw => simp [roleIndex] at hqi
      | pbgw => simp [roleIndex] at hqi
    · intro q hq
      cases q with
      | backplane => exact absurd hq (by decide)
      | wsgw => exact absurd hq (by decide)
      | pbgw => rfl

/-- Launch oracle for the C4 witness: the backplane spawns (pid 31) but
the websocket gateway executable is missing. -/
def c4Env : InitEnv :=
  ⟨[], fun _ => Option.none,
    fun r => match r with
      | Role.backplane => Option.some 31
      | Role.wsgw => Option.none
      | Role.pbgw => Option.none,
    Option.none⟩

theorem c4_witness :
    ∃ tr, s3pInit c4Env = Except.error (execName Role.wsgw, tr) ∧
      (∀ (q : Role) (args : List String),
        roleIndex Role.wsgw < roleIndex q → Event.launch q args ∉ tr) ∧
      (∀ q : Role, execName q = execName Role.wsgw → q = Role.wsgw) :=
  c4_launch_failure_stops_startup c4Env Role.wsgw scanInit rfl
    (fun _ => rfl) rfl
    (by intro q hq
        cases q with
        | backplane => rfl
        | wsgw => exact absurd hq (by decide)
        | pbgw => exact absurd hq (by decide))

/-- C5: when every enumerated pid is queryable and some process named
backplane is found, start_backplane adopts a found process's pid
(backplane_exists is set), and subprocess.Popen is never invoked for the
backplane — its trace contains no launch event at all. -/
theorem c5_existing_backplane_not_spawned (env : InitEnv)
    (hq : ∀ pid ∈ env.pids, (env.nameOf pid).isSome = true)
    (hm : matchesOf env env.pids ≠ []) :
    ∃ res : BpResult, start_backplane env = Except.ok res ∧
      res.backplane_exists = true ∧
      (∀ args : List String, Event.launch Role.backplane args ∉ res.events) ∧
      ∃ pid, pid ∈ env.pids ∧
        env.nameOf pid = Option.some ("backplane") ∧
        res.proc_bp = Option.some pid := by
  obtain ⟨s, hscan, hbe, hpb, hev⟩ := backplaneScan_char env hq
  have hex : s.backplane_exists = true := by
    rw [hbe]
    cases hml : matchesOf env env.pids with
    | nil => exact absurd hml hm
    | cons a t => rfl
  have hsb : start_backplane env = Except.ok ⟨s.proc_bp, true, s.events⟩ := by
    simp [start_backplane, hscan, hex]
  obtain ⟨m, hm2⟩ : ∃ m, (matchesOf env env.pids).getLast? = Option.some m := by
    cases hg : (matchesOf env env.pids).getLast? with
    | some k => exact ⟨k, rfl⟩
    | none =>
      rw [List.getLast?_eq_none_iff] at hg
      exact absurd hg hm
  have hmem : m ∈ matchesOf env env.pids := by
    have h1 : m ∈ (matchesOf env env.pids).getLast? := by
      rw [hm2]
      rfl
    obtain ⟨hne, hx⟩ := List.mem_getLast?_eq_getLast h1
    rw [hx]
    exact List.getLast_mem hne
  have hmf := List.mem_filter.mp hmem
  refine ⟨⟨s.proc_bp, true, s.events⟩, hsb, rfl, ?_,
    ⟨m, hmf.1, of_decide_eq_true hmf.2, ?_⟩⟩
  · intro args hmem2
    have hmem3 : Event.launch Role.backplane args ∈ s.events := hmem2
    rw [hev] at hmem3
    obtain ⟨e2, _, he2⟩ := List.mem_map.mp hmem3
    exact absurd he2 (by simp)
  · show s.proc_bp = Option.some m
    rw [hpb]
    unfold lastOr
    rw [hm2]

/-- Registry oracle for the C5 witness: one visible process, pid 70,
named backplane. -/
def c5Env : InitEnv :=
  ⟨[70],
    fun pid => if pid = 70 then Option.some ("backplane") else Option.none,
    fun _ => Option.none, Option.none⟩

theorem c5_witness :
    ∃ res : BpResult, start_backplane c5Env = Except.ok res ∧
      res.backplane_exists = true ∧
      (∀ args : List String, Event.launch Role.backplane args ∉ res.events) ∧
      ∃ pid, pid ∈ c5Env.pids ∧
        c5Env.nameOf pid = Option.some ("backplane") ∧
        res.proc_bp = Option.some pid :=
  c5_existing_backplane_not_spawned c5Env (by decide) (by decide)

/-- The spec's contract for the registry scan, stated from its words:
the identifier of the FIRST enumerated process whose executable name
matches. -/
def firstMatch (env : InitEnv) : Option Nat := (matchesOf env env.pids).head?

/-- Registry oracle for the C6 counterexample: two visible processes,
pids 100 and 200, both named backplane. -/
def c6Env : InitEnv :=
  ⟨[100, 200],
    fun pid => if pid = 100 then Option.some ("backplane")
      else if pid = 200 then Option.some ("backplane") else Option.none,
    fun _ => Option.none, Option.none⟩

/-- C6 counterexample: with two backplane processes visible (pids 100
then 200 in enumeration order), the scan adopts pid 200 — the LAST
match, not the first one the claim promises (the loop has no break). -/
theorem c6_counterexample :
    ∃ s, backplaneScan c6Env = Except.ok s ∧
      firstMatch c6Env = Option.some 100 ∧
      s.proc_bp = Option.some 200 ∧ s.proc_bp ≠ firstMatch c6Env := by
  refine ⟨⟨Option.some (200, "backplane"), true, Option.some 200,
    [Event.printed ("Backplane started."),
      Event.printed ("Backplane started.")]⟩, rfl, rfl, rfl, ?_⟩
  decide

/-- C6 amended: when several visible processes match and all stay
queryable, the scan returns the identifier of the LAST matching process
in enumeration order. -/
theorem c6_scan_returns_last_match (env : InitEnv)
    (hq : ∀ pid ∈ env.pids, (env.nameOf pid).isSome = true)
    (_hm : matchesOf env env.pids ≠ []) :
    ∃ s, backplaneScan env = Except.ok s ∧
      s.proc_bp = (matchesOf env env.pids).getLast? := by
  obtain ⟨s, hscan, hbe, hpb, hev⟩ := backplaneScan_char env hq
  refine ⟨s, hscan, ?_⟩
  rw [hpb]
  unfold lastOr
  cases hg : (matchesOf env env.pids).getLast? <;> rfl

theorem c6_witness :
    ∃ s, backplaneScan c6Env = Except.ok s ∧
      s.proc_bp = (matchesOf c6Env c6Env.pids).getLast? :=
  c6_scan_returns_last_match c6Env (by decide) (by decide)

/-- Registry oracle for C7: a single enumerated pid, 100, which has
vanished by the time psutil.Process(100) is called. -/
def c7Env : InitEnv :=
  ⟨[100], fun _ => Option.none, fun _ => Option.none, Option.none⟩

/-- C7: the claim says such an entry is skipped and the scan completes;
in the code the local p is still None when the first query fails, so
`p.name()` raises an uncaught AttributeError and the whole scan fails. -/
theorem c7_first_entry_vanished_crashes :
    backplaneScan c7Env = Except.error ("AttributeError") := rfl

/-- C8: the startup advisory checks at the top of S3P.run.  With only
the websocket-gateway pid missing, NO advisory is printed (line 91 tests
self.proc_bp, not self.proc_awg, so the claimed role-specific line never
appears); and with only the backplane pid missing, the wsgw line is
printed although the websocket gateway is up — it names the wrong
role. -/
theorem c8_not_up_warning_bug :
    startupWarnings ⟨Option.some 100, Option.none, Option.some 300⟩ = [] ∧
    startupWarnings ⟨Option.none, Option.some 200, Option.some 300⟩ =
      ["backplane not up", "wsgw not up"] := by
  decide

/-- C9: every successful startup trace consists of the backplane phase
(whose only possible launch is the backplane one), then the fixed
time.sleep(1) delay, then the websocket gateway launch, then the device
gateway launch: the gateways are never started before the delay. -/
theorem c9_startup_order (env : InitEnv) (res : InitResult)
    (h : s3pInit env = Except.ok res) :
    ∃ pre, res.events = pre ++ [Event.sleep 1,
        Event.launch Role.wsgw wsgw_start,
        Event.printed ("Websocket Gateway started."),
        Event.launch Role.pbgw (pbgw_start env.com_port),
        Event.printed ("Picoboard Gateway started.")] ∧
      (∀ (q : Role) (args : List String), Event.launch q args ∈ pre →
        q = Role.backplane) := by
  cases hsb : start_backplane env with
  | error e =>
    have hinit : s3pInit env = Except.error e := by
      simp [s3pInit, hsb]
    rw [hinit] at h
    exact Except.noConfusion h
  | ok bp =>
    cases hw : env.launchPid Role.wsgw with
    | none =>
      have hinit : s3pInit env = Except.error (execName Role.wsgw,
          bp.events ++ [Event.sleep 1, Event.launch Role.wsgw wsgw_start]) := by
        simp [s3pInit, hsb, hw]
      rw [hinit] at h
      exact Except.noConfusion h
    | some apid =>
      cases hp : env.launchPid Role.pbgw with
      | none =>
        have hinit : s3pInit env = Except.error (execName Role.pbgw,
            bp.events ++ [Event.sleep 1, Event.launch Role.wsgw wsgw_start,
              Event.printed ("Websocket Gateway started."),
              Event.launch Role.pbgw (pbgw_start env.com_port)]) := by
          simp [s3pInit, hsb, hw, hp]
        rw [hinit] at h
        exact Except.noConfusion h
      | some hpid =>
        have hinit : s3pInit env = Except.ok
            ⟨⟨bp.proc_bp, Option.some apid, Option.some hpid⟩,
              bp.backplane_exists,
              bp.events ++ [Event.sleep 1, Event.launch Role.wsgw wsgw_start,
                Event.printed ("Websocket Gateway started."),
                Event.launch Role.pbgw (pbgw_start env.com_port),
                Event.printed ("Picoboard Gateway started.")]⟩ := by
          simp [s3pInit, hsb, hw, hp]
        rw [hinit, Except.ok.injEq] at h
        refine ⟨bp.events, ?_, ?_⟩
        · rw [← h]
        · intro q args hmem
          exact start_backplane_launches env bp hsb q args hmem

/-- Oracles for the C9 witness: empty registry, all three launches
succeed (pids 60, 61, 62), manual com port COM3. -/
def c9Env : InitEnv :=
  ⟨[], fun _ => Option.none,
    fun r => Option.some (60 + roleIndex r), Option.some ("COM3")⟩

def c9Res : InitResult :=
  ⟨⟨Option.some 60, Option.some 61, Option.some 62⟩, true,
    [Event.launch Role.backplane [], Event.printed ("Backplane started."),
      Event.sleep 1, Event.launch Role.wsgw wsgw_start,
      Event.printed ("Websocket Gateway started."),
      Event.launch Role.pbgw (pbgw_start (Option.some ("COM3"))),
      Event.printed ("Picoboard Gateway started.")]⟩

theorem c9_witness :
    ∃ pre, c9Res.events = pre ++ [Event.sleep 1,
        Event.launch Role.wsgw wsgw_start,
        Event.printed ("Websocket Gateway started."),
        Event.launch Role.pbgw (pbgw_start c9Env.com_port),
        Event.printed ("Picoboard Gateway started.")] ∧
      (∀ (q : Role) (args : List String), Event.launch q args ∈ pre →
        q = Role.backplane) :=
  c9_startup_order c9Env c9Res rfl

end S3Extend
